import Mathlib

/-!
Shallow embedding of the whatsapp-ai-agent webhook server (src/server.js).

JavaScript runtime values that can flow through the pipeline are modelled by
the type JSVal (JSON values; the absent value undefined is modelled by
Option JSVal, with none standing for undefined).  External calls (database,
LLM gateway via axios, spreadsheet append, messaging transport) are modelled
by oracle inputs giving the outcome the external world returns for each call;
the handlers are then pure functions of the request, the oracle and the
staging-store state, additionally emitting a trace of attempted side effects.
JSON numbers are modelled as exact rationals: parse success and zero-ness
(the only observations the code makes) agree with IEEE doubles on every input
considered here.
-/

/-- A JavaScript JSON value.  undefined is represented externally as
Option JSVal = none. -/
inductive JSVal where
  | null : JSVal
  | bool : Bool → JSVal
  | num : Rat → JSVal
  | str : String → JSVal
  | arr : List JSVal → JSVal
  | obj : List (String × JSVal) → JSVal

/-- JavaScript truthiness of a defined value: null, false, 0, and the empty
string are falsy; every array and object (even empty) is truthy. -/
def truthy : JSVal → Bool
  | .null => false
  | .bool b => b
  | .num q => q != 0
  | .str s => !s.isEmpty
  | .arr _ => true
  | .obj _ => true

/-- Truthiness of a possibly-undefined value (undefined is falsy). -/
def truthyO : Option JSVal → Bool
  | none => false
  | some v => truthy v

/-- Last binding of a key in an object field list (later duplicate keys
overwrite earlier ones in a JavaScript object literal / JSON.parse). -/
def lookupLast (k : String) : List (String × JSVal) → Option JSVal
  | [] => none
  | (k0, v0) :: rest =>
    match lookupLast k rest with
    | some v => some v
    | none => if k0 = k then some v0 else none

/-- Property access v.k on a defined, non-null value: objects look the key
up, primitives and arrays have none of the properties this program reads.
Access on null throws in JavaScript; callers model that case separately. -/
def jsProp (v : JSVal) (k : String) : Option JSVal :=
  match v with
  | .obj fields => lookupLast k fields
  | _ => none

/-- The JavaScript expression a || b for a possibly-undefined a and defined
default b. -/
def jsOrV (a : Option JSVal) (b : JSVal) : JSVal :=
  match a with
  | some v => if truthy v then v else b
  | none => b

/-- The JavaScript expression a || b, both sides possibly undefined. -/
def jsOrO (a b : Option JSVal) : Option JSVal :=
  match a with
  | some v => if truthy v then some v else b
  | none => b

/-- The JavaScript expression a && a.k (guarded property access): if a is
falsy the result is a itself, otherwise the property of a (a is truthy,
hence non-null, so the access cannot throw). -/
def jsAndProp (a : Option JSVal) (k : String) : Option JSVal :=
  match a with
  | some v => if truthy v then jsProp v k else some v
  | none => none

/-- Index access v[0], as used on the completions array: arrays give their
head, strings their first character, objects the key "0". -/
def jsIndex0 : JSVal → Option JSVal
  | .arr (x :: _) => some x
  | .arr [] => none
  | .str s => if s.isEmpty then none else some (.str (String.mk [s.data.head!]))
  | .obj fields => lookupLast "0" fields
  | _ => none

/-- Hexadecimal rendering of a Nat below 16. -/
def hexDigit (n : Nat) : Char :=
  if n < 10 then Char.ofNat (48 + n) else Char.ofNat (87 + n)

/-- JSON.stringify escaping of one string character. -/
def escapeChar (c : Char) : String :=
  if c = '"' then "\\\""
  else if c = '\\' then "\\\\"
  else if c = '\n' then "\\n"
  else if c = '\r' then "\\r"
  else if c = '\t' then "\\t"
  else if c = '\x08' then "\\b"
  else if c = '\x0c' then "\\f"
  else if c.toNat < 32 then
    "\\u00" ++ String.mk [hexDigit (c.toNat / 16), hexDigit (c.toNat % 16)]
  else String.mk [c]

/-- JSON.stringify rendering of a string literal. -/
def stringifyStr (s : String) : String :=
  "\"" ++ String.join (s.data.map escapeChar) ++ "\""

/-- Rendering of a JSON number.  Integers render exactly as JavaScript
does; non-integral rationals use an exact a/b form (the program only ever
stringifies integer-valued numbers on the paths the claims exercise). -/
def stringifyNum (q : Rat) : String :=
  if q.den = 1 then toString q.num else toString q.num ++ "/" ++ toString q.den

mutual

/-- Model of JSON.stringify on defined values. -/
def jsonStringify : JSVal → String
  | .null => "null"
  | .bool b => if b then "true" else "false"
  | .num q => stringifyNum q
  | .str s => stringifyStr s
  | .arr xs => "[" ++ stringifyList xs ++ "]"
  | .obj fields => "\x7b" ++ stringifyFields fields ++ "\x7d"

/-- Comma-joined stringification of array elements. -/
def stringifyList : List JSVal → String
  | [] => ""
  | [x] => jsonStringify x
  | x :: xs => jsonStringify x ++ "," ++ stringifyList xs

/-- Comma-joined stringification of object fields. -/
def stringifyFields : List (String × JSVal) → String
  | [] => ""
  | [(k, v)] => stringifyStr k ++ ":" ++ jsonStringify v
  | (k, v) :: fs => stringifyStr k ++ ":" ++ jsonStringify v ++ "," ++ stringifyFields fs

end

mutual

/-- Model of the JavaScript String() coercion used by template literals. -/
def jsDisplay : JSVal → String
  | .null => "null"
  | .bool b => if b then "true" else "false"
  | .num q => stringifyNum q
  | .str s => s
  | .arr xs => displayList xs
  | .obj _ => "[object Object]"

/-- Array-to-string coercion: elements joined by commas. -/
def displayList : List JSVal → String
  | [] => ""
  | [x] => jsDisplay x
  | x :: xs => jsDisplay x ++ "," ++ displayList xs

end

/-- JSON whitespace characters. -/
def isJsonWs (c : Char) : Bool :=
  c = ' ' || c = '\t' || c = '\n' || c = '\r'

/-- Drop leading JSON whitespace. -/
def skipWs : List Char → List Char
  | c :: cs => if isJsonWs c then skipWs cs else c :: cs
  | [] => []

/-- Value of a hexadecimal digit character. -/
def hexVal (c : Char) : Option Nat :=
  if c.isDigit then some (c.toNat - 48)
  else if 97 ≤ c.toNat && c.toNat ≤ 102 then some (c.toNat - 87)
  else if 65 ≤ c.toNat && c.toNat ≤ 70 then some (c.toNat - 55)
  else none

/-- Body of a JSON string literal, after the opening quote: returns the
decoded string and the input after the closing quote.  Escapes follow the
JSON grammar; a \u escape that does not denote a valid scalar value (a lone
surrogate) is rejected, where JavaScript would keep the UTF-16 unit — no
input considered in this development contains such an escape. -/
def parseStringBody (fuel : Nat) (cs : List Char) (acc : List Char) :
    Option (String × List Char) :=
  match fuel with
  | 0 => none
  | fuel + 1 =>
    match cs with
    | [] => none
    | c :: rest =>
      if c = '"' then some (String.mk acc.reverse, rest)
      else if c = '\\' then
        match rest with
        | [] => none
        | e :: rest2 =>
          if e = '"' then parseStringBody fuel rest2 ('"' :: acc)
          else if e = '\\' then parseStringBody fuel rest2 ('\\' :: acc)
          else if e = '/' then parseStringBody fuel rest2 ('/' :: acc)
          else if e = 'b' then parseStringBody fuel rest2 ('\x08' :: acc)
          else if e = 'f' then parseStringBody fuel rest2 ('\x0c' :: acc)
          else if e = 'n' then parseStringBody fuel rest2 ('\n' :: acc)
          else if e = 'r' then parseStringBody fuel rest2 ('\r' :: acc)
          else if e = 't' then parseStringBody fuel rest2 ('\t' :: acc)
          else if e = 'u' then
            match rest2 with
            | h1 :: h2 :: h3 :: h4 :: rest3 =>
              match hexVal h1, hexVal h2, hexVal h3, hexVal h4 with
              | some a, some b, some c2, some d =>
                let n := ((a * 16 + b) * 16 + c2) * 16 + d
                if h : n.isValidChar then
                  parseStringBody fuel rest3 (Char.ofNatAux n h :: acc)
                else none
              | _, _, _, _ => none
            | _ => none
          else none
      else if c.toNat < 32 then none
      else parseStringBody fuel rest (c :: acc)

/-- Numeric value of a list of decimal digit characters. -/
def natOfDigits (ds : List Char) : Nat :=
  ds.foldl (fun a c => a * 10 + (c.toNat - 48)) 0

/-- Optional exponent part of a JSON number. -/
def parseExpPart (cs : List Char) : Option (Int × List Char) :=
  match cs with
  | c :: rest =>
    if c = 'e' || c = 'E' then
      let signAndRest : Int × List Char :=
        match rest with
        | '+' :: t => (1, t)
        | '-' :: t => (-1, t)
        | _ => (1, rest)
      let ds := signAndRest.2.takeWhile Char.isDigit
      if ds.isEmpty then none
      else some (signAndRest.1 * (natOfDigits ds : Int), signAndRest.2.dropWhile Char.isDigit)
    else some (0, cs)
  | [] => some (0, [])

/-- Optional fraction part of a JSON number. -/
def parseFracPart (cs : List Char) : Option (Rat × List Char) :=
  match cs with
  | '.' :: rest =>
    let ds := rest.takeWhile Char.isDigit
    if ds.isEmpty then none
    else some ((natOfDigits ds : Rat) / (10 : Rat) ^ ds.length, rest.dropWhile Char.isDigit)
  | _ => some (0, cs)

/-- JSON number: -? (0 | [1-9] digits) fraction? exponent?.  A leading zero
may not be followed by further integer digits, as in the JSON grammar. -/
def parseNumber (cs : List Char) : Option (Rat × List Char) :=
  let negAndRest : Bool × List Char :=
    match cs with
    | '-' :: t => (true, t)
    | _ => (false, cs)
  match negAndRest.2 with
  | [] => none
  | c :: rest =>
    if !c.isDigit then none
    else
      let intAndRest : List Char × List Char :=
        if c = '0' then ([c], rest)
        else ((c :: rest).takeWhile Char.isDigit, (c :: rest).dropWhile Char.isDigit)
      match parseFracPart intAndRest.2 with
      | none => none
      | some (fr, cs3) =>
        match parseExpPart cs3 with
        | none => none
        | some (e, cs4) =>
          let base : Rat := (natOfDigits intAndRest.1 : Rat) + fr
          some ((if negAndRest.1 then -base else base) * (10 : Rat) ^ e, cs4)

mutual

/-- JSON value parser (recursive descent, fuel-bounded). -/
def parseValue : Nat → List Char → Option (JSVal × List Char)
  | 0, _ => none
  | _, [] => none
  | fuel + 1, c :: cs =>
    if c = '\x7b' then
      match skipWs cs with
      | '\x7d' :: r => some (.obj [], r)
      | cs1 => parseFieldList fuel cs1 []
    else if c = '[' then
      match skipWs cs with
      | ']' :: r => some (.arr [], r)
      | cs1 => parseElemList fuel cs1 []
    else if c = '"' then
      match parseStringBody (cs.length + 1) cs [] with
      | some (s, r) => some (.str s, r)
      | none => none
    else if c = 't' then
      match cs with
      | 'r' :: 'u' :: 'e' :: r => some (.bool true, r)
      | _ => none
    else if c = 'f' then
      match cs with
      | 'a' :: 'l' :: 's' :: 'e' :: r => some (.bool false, r)
      | _ => none
    else if c = 'n' then
      match cs with
      | 'u' :: 'l' :: 'l' :: r => some (.null, r)
      | _ => none
    else
      match parseNumber (c :: cs) with
      | some (q, r) => some (.num q, r)
      | none => none

/-- Elements of a non-empty JSON array, input positioned at a value. -/
def parseElemList : Nat → List Char → List JSVal → Option (JSVal × List Char)
  | 0, _, _ => none
  | fuel + 1, cs, acc =>
    match parseValue fuel cs with
    | none => none
    | some (v, r) =>
      match skipWs r with
      | ',' :: r2 => parseElemList fuel (skipWs r2) (v :: acc)
      | ']' :: r2 => some (.arr (v :: acc).reverse, r2)
      | _ => none

/-- Fields of a non-empty JSON object, input positioned at a key string. -/
def parseFieldList : Nat → List Char → List (String × JSVal) →
    Option (JSVal × List Char)
  | 0, _, _ => none
  | fuel + 1, cs, acc =>
    match cs with
    | '"' :: r =>
      match parseStringBody (r.length + 1) r [] with
      | none => none
      | some (k, r1) =>
        match skipWs r1 with
        | ':' :: r2 =>
          match parseValue fuel (skipWs r2) with
          | none => none
          | some (v, r3) =>
            match skipWs r3 with
            | ',' :: r4 => parseFieldList fuel (skipWs r4) ((k, v) :: acc)
            | '\x7d' :: r4 => some (.obj ((k, v) :: acc).reverse, r4)
            | _ => none
        | _ => none
    | _ => none

end

/-- Model of JSON.parse: a single JSON value, surrounded only by
whitespace; anything else raises, modelled as none. -/
def jsonParse (s : String) : Option JSVal :=
  match parseValue (2 * s.length + 4) (skipWs s.data) with
  | some (v, rest) => if (skipWs rest).isEmpty then some v else none
  | none => none

/-- Structured lead record produced by extraction.  Field values are
JavaScript values: the code does not constrain their types beyond the
falsy-default coercion. -/
structure LeadFields where
  name : JSVal
  phone : JSVal
  priority : JSVal
  contact_method : JSVal
  notes : JSVal

/-- reply.slice(0, n): the first n characters.  JavaScript slices by
UTF-16 units; on the basic multilingual plane units and characters
coincide. -/
def sliceUpTo (s : String) (n : Nat) : String := String.mk (s.data.take n)

/-- The catch branch of extractLeadStructured: the all-unknown salvage
record carrying the raw reply truncated to 2000 characters in notes. -/
def salvageRecord (reply : String) : LeadFields :=
  { name := .null, phone := .null, priority := .str "unknown",
    contact_method := .str "unknown", notes := .str (sliceUpTo reply 2000) }

/-- reply.slice(firstBrace) when the reply contains a brace, otherwise the
whole reply (firstBrace = reply.indexOf of the opening brace). -/
def braceSlice (reply : String) : String :=
  let tail := reply.data.dropWhile (fun c => c ≠ '\x7b')
  if tail.isEmpty then reply else String.mk tail

/-- The parsing part of extractLeadStructured, applied to the raw gateway
reply: parse from the first brace; on success coerce the five fields with
falsy defaults; on parse failure, or when the parsed value is JSON null
(whose property access throws and lands in the catch), return the salvage
record. -/
def extractFromReply (reply : String) : LeadFields :=
  match jsonParse (braceSlice reply) with
  | none => salvageRecord reply
  | some .null => salvageRecord reply
  | some parsed =>
    { name := jsOrV (jsProp parsed "name") .null,
      phone := jsOrV (jsProp parsed "phone") .null,
      priority := jsOrV (jsProp parsed "priority") (.str "unknown"),
      contact_method := jsOrV (jsProp parsed "contact_method") (.str "unknown"),
      notes := jsOrV (jsProp parsed "notes") (.str "") }

/-- Failure modes of an axios POST: network failure, non-2xx status (axios
rejects those by default), or elapsed timeout. -/
inductive AxiosErr where
  | transport : AxiosErr
  | badStatus : Nat → AxiosErr
  | timeout : AxiosErr

/-- Timeout passed to axios for the model-gateway call (60 seconds). -/
def openRouterTimeoutMs : Nat := 60000

/-- Timeout passed to axios for the messaging-transport call. -/
def evolutionTimeoutMs : Nat := 30000

/-- Platform default model identifier. -/
def defaultModel : String := "x-ai/grok-4-fast:free"

/-- One step of a truthiness-guarded access chain a && f a. -/
def truthyChain (a : Option JSVal) (f : JSVal → Option JSVal) : Option JSVal :=
  match a with
  | some v => if truthy v then f v else none
  | none => none

/-- The guard expression choices && choices[0] && choices[0].message &&
choices[0].message.content on a successful response body, yielding the
content when every link is truthy. -/
def contentChain (data : JSVal) : Option JSVal :=
  let choices : Option JSVal := if truthy data then jsProp data "choices" else some data
  let c0 := truthyChain choices jsIndex0
  let msg := truthyChain c0 (fun v => jsProp v "message")
  match truthyChain msg (fun v => jsProp v "content") with
  | some c => if truthy c then some c else none
  | none => none

/-- Model of callOpenRouter: the axios outcome is an oracle input.  A
rejected promise propagates as the error; on a fulfilled exchange the
first completion content is returned when the expected shape is present
and truthy, otherwise the raw body itself when it is a truthy string,
otherwise its JSON serialization. -/
def callOpenRouter (model : JSVal) (prompt : String) (temperature : Rat)
    (ax : Except AxiosErr JSVal) : Except AxiosErr JSVal :=
  match ax with
  | .error e => .error e
  | .ok data =>
    match contentChain data with
    | some c => .ok c
    | none =>
      match data with
      | .str s => if !s.isEmpty then .ok (.str s) else .ok (.str (jsonStringify data))
      | _ => .ok (.str (jsonStringify data))

/-- The extraction instruction prompt (template literal from the source,
with the business context and customer message interpolated). -/
def extractionPrompt (context message : String) : String :=
  "\nYou are a JSON extractor. Given a customer message and optionally business context, extract lead info into a JSON object with these fields:\n\x7b\n  \"name\": \"string or null\",\n  \"phone\": \"string or null\",\n  \"priority\": \"low|medium|high|unknown\",\n  \"contact_method\": \"phone|text|whatsapp|unknown\",\n  \"notes\": \"free text\"\n\x7d\nReturn ONLY the JSON object. Business context: " ++ context ++ "\nCustomer message: " ++ message ++ "\n"

/-- The reply-generation prompt built in the webhook handler. -/
def replyPrompt (businessContext userText : String) : String :=
  "Business context: " ++ businessContext ++ "\n\nUser: " ++ userText ++
    "\n\nReply as a helpful sales assistant."

/-- Fixed apology substituted when reply generation fails. -/
def apologyText : String :=
  "Sorry, I\x27m having trouble right now. We\x27ll get back to you shortly."

/-- Failure modes of extractLeadStructured: a gateway failure from its own
callOpenRouter call (the call sits outside the try block, so it
propagates), or a TypeError from calling a String method on a non-string
completion content. -/
inductive ExtractErr where
  | gateway : AxiosErr → ExtractErr
  | typeError : ExtractErr

/-- Model of extractLeadStructured: gateway call at temperature 0, then
the parse-and-coerce step on the string reply. -/
def extractLeadStructured (model : JSVal) (message : String) (context : String)
    (ax : Except AxiosErr JSVal) : Except ExtractErr LeadFields :=
  match callOpenRouter model (extractionPrompt context message) 0 ax with
  | .error e => .error (.gateway e)
  | .ok (.str reply) => .ok (extractFromReply reply)
  | .ok _ => .error .typeError

/-- A row of the temp_leads table. -/
structure TempLead where
  id : Nat
  bot_id : Nat
  instance_name : JSVal
  fields : LeadFields
  raw_message : JSVal

/-- The temp_leads table: rows in insertion order, plus the next SERIAL
value. -/
structure Store where
  rows : List TempLead
  nextId : Nat

/-- INSERT INTO temp_leads ... RETURNING *: assigns the next id and returns
the stored row. -/
def insertTempLead (botId : Nat) (instanceName : JSVal) (leadObj : LeadFields)
    (rawMsg : JSVal) (st : Store) : TempLead × Store :=
  let row : TempLead := ⟨st.nextId, botId, instanceName, leadObj, rawMsg⟩
  (row, ⟨st.rows ++ [row], st.nextId + 1⟩)

/-- DELETE FROM temp_leads WHERE id = $1: unconditional, succeeds whether
or not a row matches. -/
def deleteTempLeadById (id : Nat) (st : Store) : Store :=
  ⟨st.rows.filter (fun r => r.id != id), st.nextId⟩

/-- SELECT * FROM temp_leads WHERE id = $1 LIMIT 1. -/
def getTempLeadById (id : Nat) (st : Store) : Option TempLead :=
  st.rows.find? (fun r => r.id == id)

/-- Store well-formedness: every present id is below the next SERIAL
value (true of every store the program can produce). -/
def StoreWF (st : Store) : Prop := ∀ r ∈ st.rows, r.id < st.nextId

/-- Process configuration relevant to the pipeline: whether a spreadsheet
client was built, and the sales-notification environment variables (none
models an unset variable; the empty string is set but falsy). -/
structure Config where
  sheetsConfigured : Bool
  salesInstanceName : Option String
  salesWhatsappNumber : Option String

/-- An environment variable as a JavaScript value. -/
def envJS : Option String → Option JSVal
  | none => none
  | some s => some (.str s)

/-- The truthiness test SALES_INSTANCE_NAME && SALES_WHATSAPP_NUMBER
guarding the sales notification. -/
def salesConfig (cfg : Config) : Option (String × String) :=
  match cfg.salesInstanceName, cfg.salesWhatsappNumber with
  | some si, some sn => if si.isEmpty || sn.isEmpty then none else some (si, sn)
  | _, _ => none

/-- Failure modes of a store query: connectivity loss, or a uniqueness
constraint violation (the losing side of a duplicate-insert race on the
bots.instance_name UNIQUE column). -/
inductive StoreErr where
  | connectivity : StoreErr
  | uniqueViolation : StoreErr

/-- The columns of the bots table the handler selects. -/
structure BotRow where
  id : Nat
  model : JSVal
  context_json : JSVal

/-- Outcomes the external world returns for the calls one message makes:
the bots SELECT, the bots INSERT (used only when the SELECT found
nothing), the two gateway exchanges, and the delivery legs. -/
structure MsgOracle where
  botSelect : Except StoreErr (Option BotRow)
  botInsertId : Except StoreErr Nat
  replyAxios : Except AxiosErr JSVal
  extractAxios : Except AxiosErr JSVal
  stagingInsertOk : Bool
  sheetAppendOk : Bool
  notifySendOk : Bool

/-- Outcomes for the two delivery legs of one retry invocation. -/
structure RetryOracle where
  sheetAppendOk : Bool
  notifySendOk : Bool

/-- Observable side-effect attempts of a run, in program order. -/
inductive Event where
  | respond : Nat → JSVal → Event
  | gatewayCall : JSVal → String → Rat → Event
  | sheetAppend : LeadFields → Event
  | notifySend : String → String → String → Event
  | replySend : JSVal → Option JSVal → JSVal → Event
  | stageInsert : Nat → Event
  | stageDelete : Nat → Event

/-- Body of the immediate webhook acknowledgment. -/
def okBody : JSVal := .obj [("ok", .bool true)]

/-- Body of the retry 404 response. -/
def notFoundBody : JSVal := .obj [("error", .str "not found")]

/-- The expression a || b on two defined values. -/
def jsOrD (a b : JSVal) : JSVal := if truthy a then a else b

/-- The fixed-format sales summary template literal. -/
def summaryText (inst : JSVal) (l : LeadFields) : String :=
  "New lead (bot=" ++ jsDisplay inst ++ "):\nName: " ++
    jsDisplay (jsOrD l.name (.str "—")) ++ "\nPhone: " ++
    jsDisplay (jsOrD l.phone (.str "—")) ++ "\nPriority: " ++
    jsDisplay l.priority ++ "\nContact: " ++ jsDisplay l.contact_method ++
    "\nNotes: " ++ jsDisplay (jsOrD l.notes (.str "—"))

/-- Whitespace for the trim guard (the JavaScript whitespace class
restricted to the characters arising in this development). -/
def isTrimWs (c : Char) : Bool :=
  c = ' ' || c = '\t' || c = '\n' || c = '\r' || c = '\x0b' || c = '\x0c'

/-- The guard text.trim().length === 0: every character is whitespace. -/
def trimEmpty (s : String) : Bool := s.data.all isTrimWs

/-- msg.from || msg.author || msg.sender. -/
def fromOf (msg : JSVal) : Option JSVal :=
  jsOrO (jsProp msg "from") (jsOrO (jsProp msg "author") (jsProp msg "sender"))

/-- Reading the message text through the tolerant fallback chain and the
emptiness guard.  error () models a thrown TypeError (a null message entry,
or a truthy non-string text reaching the .trim() call), ok none models the
continue branch (falsy text or whitespace-only string), and ok some s a
message that proceeds through the pipeline. -/
def textOf (msg : JSVal) : Except Unit (Option String) :=
  match msg with
  | .null => .error ()
  | _ =>
    let tv : JSVal := jsOrV (jsOrO (jsAndProp (jsProp msg "body") "text")
      (jsOrO (jsProp msg "text") (jsOrO (jsProp msg "message")
        (jsAndProp (jsProp msg "data") "text")))) (.str "")
    if truthy tv then
      match tv with
      | .str s => if trimEmpty s then .ok none else .ok (some s)
      | _ => .error ()
    else .ok none

/-- Result of handling one message: updated store, emitted side-effect
attempts, and whether an uncaught exception ended the loop. -/
structure MsgResult where
  store : Store
  events : List Event
  aborted : Bool

/-- The record produced when extractLeadStructured throws and the webhook
catch substitutes a default. -/
def fallbackLead : LeadFields :=
  { name := .null, phone := .null, priority := .str "unknown",
    contact_method := .str "unknown", notes := .str "" }

/-- The find-or-create bots step: SELECT by instance name; when absent,
INSERT with the default model and empty context.  Neither query is inside
a try block, so either failure propagates. -/
def resolveBot (o : MsgOracle) : Except StoreErr BotRow :=
  match o.botSelect with
  | .error e => .error e
  | .ok (some b) => .ok b
  | .ok none =>
    match o.botInsertId with
    | .error e => .error e
    | .ok newId => .ok ⟨newId, .str defaultModel, .obj []⟩

/-- Pipeline states 1 through 8 for one message whose text passed the
guard: resolve bot (fatal on failure), generate reply (apology on
failure), extract (default record on failure), stage (skipped flag on
failure), sheet append and sales notify (boolean flags), conditional
cleanup, and the final customer reply attempt. -/
def processQualified (cfg : Config) (instanceName : JSVal) (msg : JSVal)
    (s : String) (o : MsgOracle) (st : Store) : MsgResult :=
  match resolveBot o with
  | .error _ => ⟨st, [], true⟩
  | .ok bot =>
    let model := jsOrD bot.model (.str defaultModel)
    let contextJson := jsOrD bot.context_json (.obj [])
    let businessContext := jsonStringify contextJson
    let prompt1 := replyPrompt businessContext s
    let replyText : JSVal :=
      match callOpenRouter model prompt1 (1/5) o.replyAxios with
      | .ok v => v
      | .error _ => .str apologyText
    let leadObj : LeadFields :=
      match extractLeadStructured model s businessContext o.extractAxios with
      | .ok l => l
      | .error _ => fallbackLead
    let gwEvents : List Event :=
      [.gatewayCall (jsOrD model (.str defaultModel)) prompt1 (1/5),
       .gatewayCall (jsOrD model (.str defaultModel))
         (extractionPrompt businessContext s) 0]
    let staged : Option TempLead × Store × List Event :=
      if o.stagingInsertOk then
        let rs := insertTempLead bot.id instanceName leadObj msg st
        (some rs.1, rs.2, [.stageInsert rs.1.id])
      else (none, st, [])
    let sheet : Bool × List Event :=
      if cfg.sheetsConfigured then (o.sheetAppendOk, [.sheetAppend leadObj])
      else (false, [])
    let notif : Bool × List Event :=
      match salesConfig cfg with
      | some p => (o.notifySendOk, [.notifySend p.1 p.2 (summaryText instanceName leadObj)])
      | none => (false, [])
    let cleanup : Store × List Event :=
      match staged.1 with
      | some row =>
        if sheet.1 && notif.1 then
          (deleteTempLeadById row.id staged.2.1, [.stageDelete row.id])
        else (staged.2.1, [])
      | none => (staged.2.1, [])
    ⟨cleanup.1,
     gwEvents ++ staged.2.2 ++ sheet.2 ++ notif.2 ++ cleanup.2 ++
       [.replySend instanceName (fromOf msg) replyText],
     false⟩

/-- One iteration of the message loop: text guard, then the qualified
pipeline. -/
def processMessage (cfg : Config) (instanceName : JSVal) (msg : JSVal)
    (o : MsgOracle) (st : Store) : MsgResult :=
  match textOf msg with
  | .error _ => ⟨st, [], true⟩
  | .ok none => ⟨st, [], false⟩
  | .ok (some s) => processQualified cfg instanceName msg s o st

/-- The for-of loop over message entries: an uncaught exception in one
iteration skips all later entries (the enclosing catch). -/
def runMessages (cfg : Config) (instanceName : JSVal) (msgs : List JSVal)
    (os : Nat → MsgOracle) (i : Nat) (st : Store) : MsgResult :=
  match msgs with
  | [] => ⟨st, [], false⟩
  | m :: rest =>
    let r1 := processMessage cfg instanceName m (os i) st
    if r1.aborted then ⟨r1.store, r1.events, true⟩
    else
      let r2 := runMessages cfg instanceName rest os (i + 1) r1.store
      ⟨r2.store, r1.events ++ r2.events, r2.aborted⟩

/-- event.messages || (event.payload && event.payload.messages) ||
(event.body && event.body.messages). -/
def messagesValue (event : JSVal) : Option JSVal :=
  jsOrO (jsProp event "messages")
    (jsOrO (jsAndProp (jsProp event "payload") "messages")
      (jsAndProp (jsProp event "body") "messages"))

/-- Iterable elements of the messages value: arrays yield their elements
and strings their characters; any other truthy value makes for-of throw. -/
def iterElems : JSVal → Option (List JSVal)
  | .arr xs => some xs
  | .str s => some (s.data.map (fun c => .str (String.mk [c])))
  | _ => none

/-- event.instance || event.instanceName || SALES_INSTANCE_NAME ||
the default instance literal. -/
def instanceNameOf (cfg : Config) (event : JSVal) : JSVal :=
  jsOrV (jsOrO (jsProp event "instance")
    (jsOrO (jsProp event "instanceName") (envJS cfg.salesInstanceName)))
    (.str "default-instance")

/-- An HTTP response sent to the caller. -/
structure HttpResponse where
  status : Nat
  body : JSVal

/-- Result of one handler invocation: the HTTP response, the ordered trace
of side-effect attempts (the response itself included), the store after
the run, and whether the surrounding catch was reached. -/
structure RunResult where
  response : HttpResponse
  trace : List Event
  store : Store
  aborted : Bool

/-- Whether a value is JSON null (the one body shape whose own property
read throws before anything else can happen). -/
def isNullV : JSVal → Bool
  | .null => true
  | _ => false

/-- The webhook route handler: acknowledge with 200 ok first, then locate
the message array and run the pipeline on each entry; every failure past
the acknowledgment is absorbed by the outer catch. -/
def webhookHandler (cfg : Config) (event : JSVal) (os : Nat → MsgOracle)
    (st : Store) : RunResult :=
  let ack : Event := .respond 200 okBody
  if isNullV event then ⟨⟨200, okBody⟩, [ack], st, true⟩
  else
    match messagesValue event with
    | none => ⟨⟨200, okBody⟩, [ack], st, false⟩
    | some v =>
      if truthy v then
        match iterElems v with
        | some msgs =>
          let r := runMessages cfg (instanceNameOf cfg event) msgs os 0 st
          ⟨⟨200, okBody⟩, ack :: r.events, r.store, r.aborted⟩
        | none => ⟨⟨200, okBody⟩, [ack], st, true⟩
      else ⟨⟨200, okBody⟩, [ack], st, false⟩

/-- The admin retry handler: load the staged lead by id (404 when absent),
repeat the two delivery legs against the stored fields, delete and report
full success when both legs succeed, otherwise leave the row and report
the per-leg outcomes. -/
def retryHandler (cfg : Config) (o : RetryOracle) (id : Nat) (st : Store) :
    RunResult :=
  match getTempLeadById id st with
  | none => ⟨⟨404, notFoundBody⟩, [.respond 404 notFoundBody], st, false⟩
  | some t =>
    let leadObj := t.fields
    let sheet : Bool × List Event :=
      if cfg.sheetsConfigured then (o.sheetAppendOk, [.sheetAppend leadObj])
      else (false, [])
    let notif : Bool × List Event :=
      match salesConfig cfg with
      | some p => (o.notifySendOk, [.notifySend p.1 p.2 (summaryText t.instance_name leadObj)])
      | none => (false, [])
    if sheet.1 && notif.1 then
      let body : JSVal := .obj [("ok", .bool true), ("deleted", .bool true)]
      ⟨⟨200, body⟩, sheet.2 ++ notif.2 ++ [.stageDelete id, .respond 200 body],
       deleteTempLeadById id st, false⟩
    else
      let body : JSVal := .obj [("ok", .bool false), ("sheetOk", .bool sheet.1),
        ("notifyOk", .bool notif.1)]
      ⟨⟨200, body⟩, sheet.2 ++ notif.2 ++ [.respond 200 body], st, false⟩

/-- A message entry whose text passes the guard and reaches the pipeline. -/
def qualifies (msg : JSVal) : Bool :=
  match textOf msg with
  | .ok (some _) => true
  | _ => false

/-- Whether the find-or-create bots step succeeds under the oracle. -/
def botResolved (o : MsgOracle) : Bool :=
  match resolveBot o with
  | .ok _ => true
  | .error _ => false

/-- Whether the staging insert happens and succeeds for this message. -/
def stagingSucceeded (o : MsgOracle) (msg : JSVal) : Bool :=
  qualifies msg && botResolved o && o.stagingInsertOk

/-- sheetOk as the code computes it: a configured client and a successful
append. -/
def sheetOkOf (cfg : Config) (appendOk : Bool) : Bool :=
  cfg.sheetsConfigured && appendOk

/-- notifyOk as the code computes it: both sales variables truthy and a
successful send. -/
def notifyOkOf (cfg : Config) (sendOk : Bool) : Bool :=
  (salesConfig cfg).isSome && sendOk

/-- Number of customer-reply attempts in a trace. -/
def countReplies (evs : List Event) : Nat :=
  evs.countP (fun e => match e with | .replySend _ _ _ => true | _ => false)

/-- Recognizer for model-gateway call attempts. -/
def isGatewayEvent : Event → Bool
  | .gatewayCall _ _ _ => true
  | _ => false

/-- The list of entries the for-of loop traverses, empty when the handler
returns before iterating. -/
def messagesOf (event : JSVal) : List JSVal :=
  if isNullV event then []
  else
    match messagesValue event with
    | none => []
    | some v =>
      if truthy v then
        match iterElems v with
        | some msgs => msgs
        | none => []
      else []

/-- A falsy or undefined left operand makes a || b yield the default. -/
theorem jsOrV_falsy (a : Option JSVal) (b : JSVal) (h : truthyO a = false) :
    jsOrV a b = b := by
  cases a with
  | none => rfl
  | some v => simp [truthyO] at h; simp [jsOrV, h]

/-- A truthy left operand makes a || b yield it verbatim. -/
theorem jsOrV_truthy (x b : JSVal) (h : truthy x = true) :
    jsOrV (some x) b = x := by
  simp [jsOrV, h]

/-- A present but falsy left operand makes a || b yield the default. -/
theorem jsOrV_falsy_some (x b : JSVal) (h : truthy x = false) :
    jsOrV (some x) b = b := by
  simp [jsOrV, h]

/-- Shape of the extractor result on a successful non-null parse: each
field is the falsy-defaulted projection of the parsed document. -/
theorem extractFromReply_parsed (reply : String) (v : JSVal)
    (hp : jsonParse (braceSlice reply) = some v) (hv : v ≠ .null) :
    extractFromReply reply =
      { name := jsOrV (jsProp v "name") .null,
        phone := jsOrV (jsProp v "phone") .null,
        priority := jsOrV (jsProp v "priority") (.str "unknown"),
        contact_method := jsOrV (jsProp v "contact_method") (.str "unknown"),
        notes := jsOrV (jsProp v "notes") (.str "") } := by
  unfold extractFromReply
  rw [hp]
  cases v with
  | null => exact absurd rfl hv
  | bool b => rfl
  | num q => rfl
  | str s => rfl
  | arr xs => rfl
  | obj fs => rfl

/-- The parse step of the extractor throws when the parse fails outright
or yields JSON null, whose property access raises a TypeError. -/
def parseThrows (reply : String) : Bool :=
  match jsonParse (braceSlice reply) with
  | none => true
  | some .null => true
  | some _ => false

/-- Claim C2 (amended): extraction is total, and whenever the parse step
throws — a parse failure of any kind, or a parsed JSON null — the result
is exactly the salvage record: null name and phone, unknown priority and
contact method, and the raw reply truncated to 2000 characters as notes.
A reply containing no JSON object is not always such a case: it can still
parse as a non-object JSON value, and then the falsy-defaulted record
with empty notes is returned instead of the salvage record. -/
theorem c2_parse_failure_salvage (reply : String)
    (h : parseThrows reply = true) :
    extractFromReply reply = salvageRecord reply := by
  unfold parseThrows at h
  unfold extractFromReply
  rcases hp : jsonParse (braceSlice reply) with _ | v
  · rfl
  · rw [hp] at h
    cases v with
    | null => rfl
    | bool b => simp at h
    | num q => simp at h
    | str s => simp at h
    | arr xs => simp at h
    | obj fs => simp at h

set_option maxRecDepth 2000 in
/-- Witness for C2 at a concrete unparseable reply. -/
theorem c2_parse_failure_salvage_witness :
    extractFromReply "totally not json" = salvageRecord "totally not json" :=
  c2_parse_failure_salvage "totally not json" (by rfl)

set_option maxRecDepth 3000 in
/-- Claim C2 is false as stated in its no-JSON-object part: the reply 42
contains no opening brace, yet JSON.parse accepts it as the JSON number
42, so extraction returns the falsy-defaulted record whose notes are the
empty string — not the salvage record, whose notes would be the raw text
42. -/
theorem c2_no_object_cex :
    "42".data.contains '\x7b' = false ∧
    braceSlice "42" = "42" ∧
    parseThrows "42" = false ∧
    (extractFromReply "42").notes = .str "" ∧
    (salvageRecord "42").notes = .str "42" ∧
    JSVal.str "" ≠ JSVal.str "42" := by
  refine ⟨by decide, by rfl, by rfl, by rfl, by rfl, by simp⟩

/-- Claim C5 (amended): the gateway propagates exactly the axios failure
modes (transport failure, non-2xx status, timeout — the timeout bounded
by the 60000 millisecond axios setting), and a fulfilled exchange always
produces a value: the first completion content verbatim — whatever its
type — when the expected shape is present and truthy, otherwise a string
(the raw body itself when it is a truthy string, else its JSON
serialization). -/
theorem c5_gateway_total (model : JSVal) (prompt : String) (temperature : Rat) :
    (∀ e, callOpenRouter model prompt temperature (.error e) = .error e) ∧
    (∀ data, ∃ v, callOpenRouter model prompt temperature (.ok data) = .ok v ∧
      (contentChain data = some v ∨ ∃ s, v = .str s)) ∧
    openRouterTimeoutMs = 60000 := by
  refine ⟨fun e => rfl, fun data => ?_, rfl⟩
  rcases h : contentChain data with _ | c
  · cases data with
    | str s =>
      by_cases hs : s.isEmpty
      · exact ⟨.str (jsonStringify (.str s)),
          by simp [callOpenRouter, h, hs], Or.inr ⟨_, rfl⟩⟩
      · exact ⟨.str s, by simp [callOpenRouter, h, hs], Or.inr ⟨s, rfl⟩⟩
    | null => exact ⟨.str (jsonStringify .null), by simp [callOpenRouter, h], Or.inr ⟨_, rfl⟩⟩
    | bool b => exact ⟨.str (jsonStringify (.bool b)), by simp [callOpenRouter, h], Or.inr ⟨_, rfl⟩⟩
    | num q => exact ⟨.str (jsonStringify (.num q)), by simp [callOpenRouter, h], Or.inr ⟨_, rfl⟩⟩
    | arr xs => exact ⟨.str (jsonStringify (.arr xs)), by simp [callOpenRouter, h], Or.inr ⟨_, rfl⟩⟩
    | obj fs => exact ⟨.str (jsonStringify (.obj fs)), by simp [callOpenRouter, h], Or.inr ⟨_, rfl⟩⟩
  · exact ⟨c, by simp [callOpenRouter, h], Or.inl rfl⟩

/-- Claim C5 is false as stated: a fulfilled exchange whose first
completion content is the number 42 makes callOpenRouter return that
number, which is not a string. -/
theorem c5_nonstring_cex :
    callOpenRouter (.str "m") "p" 0
      (.ok (.obj [("choices",
        .arr [.obj [("message", .obj [("content", .num 42)])]])]))
      = .ok (.num 42) ∧
    ∀ s, JSVal.num 42 ≠ .str s := by
  exact ⟨rfl, fun s h => JSVal.noConfusion h⟩

/-- A parsed field that is absent, falsy, or drawn from the allowed list. -/
def enumSafe (v : JSVal) (k : String) (allowed : List JSVal) : Prop :=
  ∀ x, jsProp v k = some x → truthy x = true → x ∈ allowed

/-- The declared priority enum. -/
def priorityEnum : List JSVal :=
  [.str "low", .str "medium", .str "high", .str "unknown"]

/-- The declared contact-method enum. -/
def contactEnum : List JSVal :=
  [.str "phone", .str "text", .str "whatsapp", .str "unknown"]

/-- Claim C6 (amended): on a successful non-null parse the extractor
applies falsy defaulting — an absent or falsy name or phone becomes null,
an absent or falsy priority or contact method becomes unknown, absent or
falsy notes become the empty string — and passes every truthy value
through verbatim with no enum validation; the enum fields are therefore
members of their declared enums exactly when the parsed document put
nothing outside them there. -/
theorem c6_falsy_defaulting (reply : String) (v : JSVal)
    (hp : jsonParse (braceSlice reply) = some v) (hv : v ≠ .null) :
    (truthyO (jsProp v "name") = false → (extractFromReply reply).name = .null) ∧
    (truthyO (jsProp v "phone") = false → (extractFromReply reply).phone = .null) ∧
    (truthyO (jsProp v "notes") = false → (extractFromReply reply).notes = .str "") ∧
    (enumSafe v "priority" priorityEnum →
      (extractFromReply reply).priority ∈ priorityEnum) ∧
    (enumSafe v "contact_method" contactEnum →
      (extractFromReply reply).contact_method ∈ contactEnum) ∧
    (∀ x, jsProp v "priority" = some x → truthy x = true →
      (extractFromReply reply).priority = x) := by
  rw [extractFromReply_parsed reply v hp hv]
  refine ⟨fun h => jsOrV_falsy _ _ h, fun h => jsOrV_falsy _ _ h,
    fun h => jsOrV_falsy _ _ h, ?_, ?_, ?_⟩
  · intro hsafe
    rcases hq : jsProp v "priority" with _ | x
    · simp [jsOrV, priorityEnum]
    · by_cases ht : truthy x = true
      · rw [jsOrV_truthy x _ ht]; exact hsafe x hq ht
      · have hf : truthy x = false := by simpa using ht
        rw [jsOrV_falsy_some x _ hf]
        simp [priorityEnum]
  · intro hsafe
    rcases hq : jsProp v "contact_method" with _ | x
    · simp [jsOrV, contactEnum]
    · by_cases ht : truthy x = true
      · rw [jsOrV_truthy x _ ht]; exact hsafe x hq ht
      · have hf : truthy x = false := by simpa using ht
        rw [jsOrV_falsy_some x _ hf]
        simp [contactEnum]
  · intro x hx ht
    rw [hx]
    exact jsOrV_truthy x _ ht

set_option maxRecDepth 2000 in
/-- Witness for C6 at a priority inside the declared enum. -/
theorem c6_falsy_defaulting_witness :
    (extractFromReply "\x7b\"priority\":\"high\"\x7d").priority ∈ priorityEnum := by
  have h := c6_falsy_defaulting "\x7b\"priority\":\"high\"\x7d"
    (.obj [("priority", .str "high")]) (by rfl) (by simp)
  refine h.2.2.2.1 ?_
  intro x hx ht
  simp [jsProp, lookupLast] at hx
  subst hx
  simp [priorityEnum]

set_option maxRecDepth 2000 in
/-- Claim C6 is false as stated: a parsed priority outside the declared
enum is passed through verbatim, so the returned enum field holds a
non-member. -/
theorem c6_enum_cex :
    (extractFromReply "\x7b\"priority\":\"urgent\"\x7d").priority = .str "urgent" ∧
    JSVal.str "urgent" ∉ priorityEnum := by
  refine ⟨by rfl, by simp [priorityEnum]⟩

/-- Claim C9: deleteTempLeadById is idempotent — deleting the same id a
second time changes nothing, and deleting an id with no matching row
succeeds and leaves the store unchanged. -/
theorem c9_delete_idempotent (id : Nat) (st : Store) :
    deleteTempLeadById id (deleteTempLeadById id st) = deleteTempLeadById id st ∧
    (getTempLeadById id st = none → deleteTempLeadById id st = st) := by
  obtain ⟨rows, nextId⟩ := st
  constructor
  · simp [deleteTempLeadById, List.filter_filter]
  · intro h
    simp only [deleteTempLeadById, Store.mk.injEq, and_true]
    refine List.filter_eq_self.mpr ?_
    intro r hr
    have hne := List.find?_eq_none.mp h r hr
    simpa using hne

/-- Witness for C9 at a concrete store and an id it does not contain. -/
theorem c9_delete_idempotent_witness :
    deleteTempLeadById 5 (⟨[⟨0, 1, .str "i", fallbackLead, .null⟩], 1⟩ : Store) =
      (⟨[⟨0, 1, .str "i", fallbackLead, .null⟩], 1⟩ : Store) :=
  (c9_delete_idempotent 5 ⟨[⟨0, 1, .str "i", fallbackLead, .null⟩], 1⟩).2 rfl

/-- Claim C10: retrying an id for which no staged lead exists answers 404
not-found, attempts no delivery and no deletion, and leaves the store
unchanged. -/
theorem c10_retry_missing_id (cfg : Config) (o : RetryOracle) (id : Nat)
    (st : Store) (h : getTempLeadById id st = none) :
    retryHandler cfg o id st =
      ⟨⟨404, notFoundBody⟩, [.respond 404 notFoundBody], st, false⟩ := by
  unfold retryHandler
  rw [h]

/-- Witness for C10 at a concrete store missing the requested id. -/
theorem c10_retry_missing_id_witness :
    retryHandler ⟨true, some "sales", some "123"⟩ ⟨true, true⟩ 5
        (⟨[⟨0, 1, .str "i", fallbackLead, .null⟩], 1⟩ : Store) =
      ⟨⟨404, notFoundBody⟩, [.respond 404 notFoundBody],
        (⟨[⟨0, 1, .str "i", fallbackLead, .null⟩], 1⟩ : Store), false⟩ :=
  c10_retry_missing_id ⟨true, some "sales", some "123"⟩ ⟨true, true⟩ 5
    ⟨[⟨0, 1, .str "i", fallbackLead, .null⟩], 1⟩ rfl

/-- Claim C7 (amended): the code does not recover from losing the
duplicate-insert race — when the bots SELECT finds no row and the INSERT
fails, in particular with the uniqueness-constraint violation the race
produces, the error propagates to the outer catch: processing of that
message aborts with no pipeline state executed, no side-effect attempt,
and the store unchanged; the existing winner row is not fetched. -/
theorem c7_bot_race_aborts (cfg : Config) (inst msg : JSVal) (o : MsgOracle)
    (st : Store) (s : String) (e : StoreErr) (hq : textOf msg = .ok (some s))
    (hsel : o.botSelect = .ok none) (hins : o.botInsertId = .error e) :
    processMessage cfg inst msg o st = ⟨st, [], true⟩ := by
  simp [processMessage, processQualified, resolveBot, hq, hsel, hins]

/-- Witness for C7 at a concrete first-contact message losing the race. -/
theorem c7_bot_race_aborts_witness :
    processMessage ⟨true, some "sales", some "123"⟩ (.str "inst")
        (.obj [("from", .str "u1"), ("text", .str "hi")])
        ⟨.ok none, .error .uniqueViolation, .ok (.str "h"), .ok (.str "x"),
          true, true, true⟩
        (⟨[], 0⟩ : Store) = ⟨⟨[], 0⟩, [], true⟩ :=
  c7_bot_race_aborts ⟨true, some "sales", some "123"⟩ (.str "inst")
    (.obj [("from", .str "u1"), ("text", .str "hi")])
    ⟨.ok none, .error .uniqueViolation, .ok (.str "h"), .ok (.str "x"),
      true, true, true⟩
    ⟨[], 0⟩ "hi" .uniqueViolation (by rfl) rfl rfl

/-- Claim C7 is false as stated: at a concrete message whose bot SELECT
finds nothing and whose INSERT loses the race with a uniqueness
violation, the run aborts with an empty trace — no existing row is
fetched and no later pipeline state runs. -/
theorem c7_bot_race_cex :
    (processMessage ⟨false, none, none⟩ (.str "inst")
        (.obj [("text", .str "hello")])
        ⟨.ok none, .error .uniqueViolation, .ok (.str "h"), .ok (.str "x"),
          true, true, true⟩
        (⟨[], 0⟩ : Store)).aborted = true ∧
    (processMessage ⟨false, none, none⟩ (.str "inst")
        (.obj [("text", .str "hello")])
        ⟨.ok none, .error .uniqueViolation, .ok (.str "h"), .ok (.str "x"),
          true, true, true⟩
        (⟨[], 0⟩ : Store)).events = [] := by
  exact ⟨by rfl, by rfl⟩

/-- Claim C8: the webhook handler acknowledges with 200 ok as its first
observable step, before any pipeline state, and the acknowledgment is
independent of the event shape, every oracle outcome, and the store. -/
theorem c8_ack_first (cfg : Config) (event : JSVal) (os : Nat → MsgOracle)
    (st : Store) :
    (webhookHandler cfg event os st).response = ⟨200, okBody⟩ ∧
    (webhookHandler cfg event os st).trace.head? = some (.respond 200 okBody) := by
  constructor <;>
  · cases event <;> simp only [webhookHandler] <;> (repeat' split) <;> rfl

/-- A row is never found under its id after deleting that id. -/
theorem getTempLeadById_delete (id : Nat) (st : Store) :
    getTempLeadById id (deleteTempLeadById id st) = none := by
  refine List.find?_eq_none.mpr ?_
  intro x hx
  have hne := (List.mem_filter.mp hx).2
  simpa using hne

/-- Claim C4: retry on a present staged lead repeats only the spreadsheet,
notification and cleanup states against the stored record — the trace has
no gateway call, and every delivery attempt uses the stored fields — it
deletes the row and answers ok and deleted exactly when both legs
succeed, and otherwise leaves the store unchanged and answers ok false
with the per-leg outcomes. -/
theorem c4_retry_contract (cfg : Config) (o : RetryOracle) (id : Nat)
    (st : Store) (t : TempLead) (h : getTempLeadById id st = some t) :
    (∀ e ∈ (retryHandler cfg o id st).trace, isGatewayEvent e = false) ∧
    (∀ l, Event.sheetAppend l ∈ (retryHandler cfg o id st).trace → l = t.fields) ∧
    (∀ a b m, Event.notifySend a b m ∈ (retryHandler cfg o id st).trace →
      m = summaryText t.instance_name t.fields) ∧
    ((sheetOkOf cfg o.sheetAppendOk && notifyOkOf cfg o.notifySendOk) = true →
      (retryHandler cfg o id st).response =
        ⟨200, .obj [("ok", .bool true), ("deleted", .bool true)]⟩ ∧
      (retryHandler cfg o id st).store = deleteTempLeadById id st ∧
      getTempLeadById id (retryHandler cfg o id st).store = none) ∧
    ((sheetOkOf cfg o.sheetAppendOk && notifyOkOf cfg o.notifySendOk) = false →
      (retryHandler cfg o id st).response =
        ⟨200, .obj [("ok", .bool false),
          ("sheetOk", .bool (sheetOkOf cfg o.sheetAppendOk)),
          ("notifyOk", .bool (notifyOkOf cfg o.notifySendOk))]⟩ ∧
      (retryHandler cfg o id st).store = st) := by
  rcases hsales : salesConfig cfg with _ | p <;>
    cases hconf : cfg.sheetsConfigured <;>
    cases happ : o.sheetAppendOk <;>
    cases hnot : o.notifySendOk <;>
    simp [retryHandler, h, hsales, hconf, happ, hnot, sheetOkOf, notifyOkOf,
      getTempLeadById_delete, isGatewayEvent]

/-- Witness for C4: a configured instance with both legs succeeding
deletes the staged row and reports full success. -/
theorem c4_retry_contract_witness :
    (retryHandler ⟨true, some "sales", some "123"⟩ ⟨true, true⟩ 0
        (⟨[⟨0, 1, .str "i", fallbackLead, .null⟩], 1⟩ : Store)).response =
      ⟨200, .obj [("ok", .bool true), ("deleted", .bool true)]⟩ ∧
    getTempLeadById 0 (retryHandler ⟨true, some "sales", some "123"⟩ ⟨true, true⟩ 0
        (⟨[⟨0, 1, .str "i", fallbackLead, .null⟩], 1⟩ : Store)).store = none := by
  have h := c4_retry_contract ⟨true, some "sales", some "123"⟩ ⟨true, true⟩ 0
    ⟨[⟨0, 1, .str "i", fallbackLead, .null⟩], 1⟩
    ⟨0, 1, .str "i", fallbackLead, .null⟩ (by rfl)
  have hb := h.2.2.2.1 (by rfl)
  exact ⟨hb.1, hb.2.2⟩

/-- No row carries the next SERIAL value in a well-formed store. -/
theorem StoreWF.no_next (st : Store) (h : StoreWF st) :
    ¬ ∃ r ∈ st.rows, r.id = st.nextId := by
  rintro ⟨r, hr, hid⟩
  exact Nat.lt_irrefl _ (hid ▸ h r hr)

/-- Filtering an id out removes every row carrying it. -/
theorem no_row_after_filter (rows : List TempLead) (n : Nat) :
    ¬ ∃ r ∈ rows.filter (fun r => r.id != n), r.id = n := by
  rintro ⟨r, hr, hid⟩
  have h2 := (List.mem_filter.mp hr).2
  simp [hid] at h2

/-- Webhook half of the staging invariant: after one message is processed
the freshly assigned id is present exactly when staging happened and at
least one delivery leg did not succeed. -/
theorem c1_partA (cfg : Config) (inst msg : JSVal) (o : MsgOracle) (st : Store)
    (hwf : StoreWF st) :
    (∃ r ∈ (processMessage cfg inst msg o st).store.rows, r.id = st.nextId) ↔
      (stagingSucceeded o msg = true ∧
        ¬(sheetOkOf cfg o.sheetAppendOk = true ∧ notifyOkOf cfg o.notifySendOk = true)) := by
  have hnone := StoreWF.no_next st hwf
  rcases htext : textOf msg with u | os0
  · simp [processMessage, htext, stagingSucceeded, qualifies, hnone]
  · rcases os0 with _ | s
    · simp [processMessage, htext, stagingSucceeded, qualifies, hnone]
    · rcases hbot : resolveBot o with e | bot
      · simp [processMessage, processQualified, htext, hbot, stagingSucceeded,
          qualifies, botResolved, hnone]
      · cases hstg : o.stagingInsertOk
        · simp [processMessage, processQualified, htext, hbot, hstg,
            stagingSucceeded, qualifies, botResolved, hnone]
        · rcases hsales : salesConfig cfg with _ | p <;>
            cases hconf : cfg.sheetsConfigured <;>
            cases happ : o.sheetAppendOk <;>
            cases hnot : o.notifySendOk <;>
            simp [processMessage, processQualified, htext, hbot, hstg, hsales,
              hconf, happ, hnot, stagingSucceeded, qualifies, botResolved,
              sheetOkOf, notifyOkOf, insertTempLead, deleteTempLeadById, hnone] <;>
            try (exact ⟨_, Or.inr rfl, rfl⟩)

/-- Retry half of the staging invariant: after a retry on a present id the
row remains exactly when at least one delivery leg did not succeed. -/
theorem c1_partB (cfg : Config) (ro : RetryOracle) (id : Nat) (st : Store)
    (t : TempLead) (h : getTempLeadById id st = some t) :
    (getTempLeadById id (retryHandler cfg ro id st).store).isSome = true ↔
      ¬(sheetOkOf cfg ro.sheetAppendOk = true ∧ notifyOkOf cfg ro.notifySendOk = true) := by
  rcases hsales : salesConfig cfg with _ | p <;>
    cases hconf : cfg.sheetsConfigured <;>
    cases happ : ro.sheetAppendOk <;>
    cases hnot : ro.notifySendOk <;>
    simp [retryHandler, h, hsales, hconf, happ, hnot, sheetOkOf, notifyOkOf,
      getTempLeadById_delete]

/-- Claim C1: after a pipeline run on a single message — webhook or retry
— a staged row for that message is in the store if and only if the
staging insert happened and succeeded and at least one of the two
delivery legs did not succeed in that run; in particular the row is
removed exactly when a staging record exists and sheetOk and notifyOk
both hold in the same attempt. -/
theorem c1_staging_invariant :
    (∀ cfg inst msg o st, StoreWF st →
      ((∃ r ∈ (processMessage cfg inst msg o st).store.rows, r.id = st.nextId) ↔
        (stagingSucceeded o msg = true ∧
          ¬(sheetOkOf cfg o.sheetAppendOk = true ∧
            notifyOkOf cfg o.notifySendOk = true)))) ∧
    (∀ cfg ro id st t, getTempLeadById id st = some t →
      ((getTempLeadById id (retryHandler cfg ro id st).store).isSome = true ↔
        ¬(sheetOkOf cfg ro.sheetAppendOk = true ∧
          notifyOkOf cfg ro.notifySendOk = true))) :=
  ⟨fun cfg inst msg o st hwf => c1_partA cfg inst msg o st hwf,
   fun cfg ro id st t h => c1_partB cfg ro id st t h⟩

set_option maxRecDepth 4000 in
/-- Witness for C1: a concrete webhook run whose sheet leg fails keeps the
freshly staged row, and a concrete retry whose notify leg fails keeps the
existing row. -/
theorem c1_staging_invariant_witness :
    (∃ r ∈ (processMessage ⟨true, some "sales", some "123"⟩ (.str "inst")
        (.obj [("from", .str "u"), ("text", .str "hi")])
        ⟨.ok (some ⟨7, .str "m", .obj []⟩), .ok 9, .ok (.str "hello"),
          .ok (.str "ok"), true, false, true⟩ (⟨[], 0⟩ : Store)).store.rows,
      r.id = 0) ∧
    (getTempLeadById 0 (retryHandler ⟨true, some "sales", some "123"⟩
        ⟨true, false⟩ 0
        (⟨[⟨0, 7, .str "i", fallbackLead, .null⟩], 1⟩ : Store)).store).isSome = true := by
  constructor
  · exact (c1_staging_invariant.1 ⟨true, some "sales", some "123"⟩ (.str "inst")
      (.obj [("from", .str "u"), ("text", .str "hi")])
      ⟨.ok (some ⟨7, .str "m", .obj []⟩), .ok 9, .ok (.str "hello"),
        .ok (.str "ok"), true, false, true⟩ ⟨[], 0⟩
      (by intro r hr; simp at hr)).mpr ⟨by rfl, by decide⟩
  · exact (c1_staging_invariant.2 ⟨true, some "sales", some "123"⟩ ⟨true, false⟩ 0
      ⟨[⟨0, 7, .str "i", fallbackLead, .null⟩], 1⟩
      ⟨0, 7, .str "i", fallbackLead, .null⟩ (by rfl)).mpr (by decide)

/-- Reply counting distributes over trace concatenation. -/
theorem countReplies_append (a b : List Event) :
    countReplies (a ++ b) = countReplies a + countReplies b :=
  List.countP_append _ _ _

/-- One processed message that does not abort attempts exactly one
customer reply when its text passes the guard, and none otherwise. -/
theorem processMessage_replies (cfg : Config) (inst msg : JSVal) (o : MsgOracle)
    (st : Store) (h : (processMessage cfg inst msg o st).aborted = false) :
    countReplies (processMessage cfg inst msg o st).events =
      (if qualifies msg then 1 else 0) := by
  rcases htext : textOf msg with u | os0
  · simp [processMessage, htext] at h
  · rcases os0 with _ | s
    · simp [processMessage, htext, qualifies, countReplies]
    · rcases hbot : resolveBot o with e | bot
      · simp [processMessage, processQualified, htext, hbot] at h
      · cases hstg : o.stagingInsertOk <;>
        rcases hsales : salesConfig cfg with _ | p <;>
        cases hconf : cfg.sheetsConfigured <;>
        cases happ : o.sheetAppendOk <;>
        cases hnot : o.notifySendOk <;>
        simp [processMessage, processQualified, htext, hbot, hstg, hsales, hconf,
          happ, hnot, qualifies, countReplies, List.countP_append, List.countP_cons]

/-- The message loop, when it does not abort, attempts exactly one reply
per entry whose text passes the guard. -/
theorem runMessages_replies (cfg : Config) (inst : JSVal) (msgs : List JSVal)
    (os : Nat → MsgOracle) : ∀ i st,
    (runMessages cfg inst msgs os i st).aborted = false →
    countReplies (runMessages cfg inst msgs os i st).events =
      (msgs.filter qualifies).length := by
  induction msgs with
  | nil => intro i st h; simp [runMessages, countReplies]
  | cons m rest ih =>
    intro i st h
    unfold runMessages at h ⊢
    rcases hab : (processMessage cfg inst m (os i) st).aborted with _ | _
    · simp only [hab, Bool.false_eq_true, if_false] at h ⊢
      rw [countReplies_append, processMessage_replies cfg inst m (os i) st hab,
        ih (i + 1) _ h]
      cases hq : qualifies m <;> simp [List.filter_cons, hq, Nat.add_comm]
    · simp [hab] at h

/-- Claim C3 (amended): when no run-ending exception occurs, the webhook
run attempts exactly one customer reply per message entry whose text
passes the non-empty guard, whatever the outcomes of reply generation,
extraction, staging, both delivery legs, and cleanup; a store failure in
bot resolution (or a malformed entry), however, ends the loop and the
affected entries get no reply attempt. -/
theorem c3_reply_exactly_once (cfg : Config) (event : JSVal)
    (os : Nat → MsgOracle) (st : Store)
    (h : (webhookHandler cfg event os st).aborted = false) :
    countReplies (webhookHandler cfg event os st).trace =
      ((messagesOf event).filter qualifies).length := by
  cases hn : isNullV event
  · simp only [webhookHandler, hn, Bool.false_eq_true, if_false] at h ⊢
    rcases hm : messagesValue event with _ | v
    · simp [hm, messagesOf, countReplies, hn]
    · by_cases htr : truthy v = true
      · rcases hit : iterElems v with _ | msgs
        · simp [hm, htr, hit] at h
        · simp only [hm, htr, hit, if_true] at h ⊢
          have hr := runMessages_replies cfg (instanceNameOf cfg event) msgs os 0 st h
          simp [countReplies, List.countP_cons, messagesOf, hm, htr, hit, hn] at hr ⊢
          exact hr
      · simp [hm, htr, messagesOf, countReplies, hn]
  · simp [webhookHandler, hn] at h

set_option maxRecDepth 4000 in
/-- Witness for C3: a clean run over two entries, one with real text and
one whitespace-only, attempts exactly one reply. -/
theorem c3_reply_exactly_once_witness :
    countReplies (webhookHandler ⟨true, some "sales", some "123"⟩
        (.obj [("messages", .arr [.obj [("from", .str "u"), ("text", .str "hi")],
          .obj [("text", .str "  ")]])])
        (fun _ => ⟨.ok (some ⟨7, .str "m", .obj []⟩), .ok 9, .ok (.str "hello"),
          .ok (.str "ok"), true, false, true⟩)
        (⟨[], 0⟩ : Store)).trace =
      ((messagesOf (.obj [("messages",
        .arr [.obj [("from", .str "u"), ("text", .str "hi")],
          .obj [("text", .str "  ")]])])).filter qualifies).length ∧
    ((messagesOf (.obj [("messages",
        .arr [.obj [("from", .str "u"), ("text", .str "hi")],
          .obj [("text", .str "  ")]])])).filter qualifies).length = 1 := by
  refine ⟨c3_reply_exactly_once ⟨true, some "sales", some "123"⟩
    (.obj [("messages", .arr [.obj [("from", .str "u"), ("text", .str "hi")],
      .obj [("text", .str "  ")]])])
    (fun _ => ⟨.ok (some ⟨7, .str "m", .obj []⟩), .ok 9, .ok (.str "hello"),
      .ok (.str "ok"), true, false, true⟩)
    ⟨[], 0⟩ (by rfl), by rfl⟩

set_option maxRecDepth 4000 in
/-- Claim C3 is false as stated: a store failure during bot resolution
drops a message whose text passed the guard, so zero reply attempts are
made for it. -/
theorem c3_bot_failure_cex :
    qualifies (.obj [("from", .str "u"), ("text", .str "hi")]) = true ∧
    countReplies (webhookHandler ⟨false, none, none⟩
        (.obj [("messages", .arr [.obj [("from", .str "u"), ("text", .str "hi")]])])
        (fun _ => ⟨.error .connectivity, .ok 1, .ok (.str "h"), .ok (.str "x"),
          true, true, true⟩)
        (⟨[], 0⟩ : Store)).trace = 0 :=
  ⟨by rfl, by rfl⟩
